import Mathlib

/-!
# Verification of the Alice handshake orchestrator (`src/apps/alice.py`)

A shallow embedding of the initiator ("Alice") side of the ML-KEM key
exchange demo.  The program under verification reads a JSON configuration
record, generates a keypair from fixed seeds, sends the encapsulation key to
a peer over TCP, validates a listen port, receives a fixed-length ciphertext
and derives a shared secret.

The embedding models every external effect as data supplied by an
environment record `Env`:

* the parsed configuration file (`Option Config`, `none` meaning the file
  was absent, i.e. `FileNotFoundError`);
* the address command line argument (flag `-a`);
* the KEM library (`keygen`, `decaps`) as opaque-to-us pure functions
  supplied by the environment, matching the call contract
  `KeyGen(d, z) -> (ek, dk)` and `Decaps(dk, ct) -> k`;
* the network: whether the outbound connect is refused, the byte stream the
  peer will deliver on the inbound connection, and a schedule describing how
  many bytes each blocking `recv` call yields.

`main` returns the process outcome (a clean exit code with the logged error
kind, or an unhandled Python exception) together with a trace of the
observable events (KeyGen invocation, outbound connect/send, bind/listen,
Decaps invocation), so that temporal claims about ordering can be stated.
-/

/-- A byte, modelled as a natural number (in practice `0 ≤ b < 256`). -/
abbrev Byte := Nat

/-- Value of a single hexadecimal digit, as accepted by Python's
`bytearray.fromhex`. -/
def hexDigit? (c : Char) : Option Nat :=
  if '0' ≤ c ∧ c ≤ '9' then some (c.toNat - '0'.toNat)
  else if 'a' ≤ c ∧ c ≤ 'f' then some (c.toNat - 'a'.toNat + 10)
  else if 'A' ≤ c ∧ c ≤ 'F' then some (c.toNat - 'A'.toNat + 10)
  else none

/-- ASCII whitespace as skipped by CPython's `bytearray.fromhex`
(space, tab, newline, carriage return, vertical tab, form feed). -/
def isPySpace (c : Char) : Bool :=
  c = ' ' || c = '\t' || c = '\n' || c = '\r' || c.toNat = 11 || c.toNat = 12

/-- Model of Python's `bytearray.fromhex`: ASCII whitespace is skipped
between byte pairs; each byte is two immediately adjacent hexadecimal
digits (whitespace inside a pair, an odd digit left over, or a non-hex
character is an error).  `none` models the `ValueError` the library raises
on invalid input. -/
def hexDecode : List Char → Option (List Byte)
  | [] => some []
  | a :: rest =>
    if isPySpace a then hexDecode rest
    else
      match rest with
      | [] => none
      | b :: rest2 =>
        match hexDigit? a, hexDigit? b, hexDecode rest2 with
        | some ha, some hb, some r => some ((16 * ha + hb) :: r)
        | _, _, _ => none

/-- Model of Python's `str.split(sep)` for a one-character separator: splits
at every occurrence of `c`; the result is always non-empty, and a string with
no occurrence of `c` yields the one-element list `[s]`. -/
def splitOnChar (c : Char) : List Char → List (List Char)
  | [] => [[]]
  | x :: xs =>
    match splitOnChar c xs with
    | [] => [[x]]
    | g :: gs => if x = c then [] :: g :: gs else (x :: g) :: gs

/-- Value of a decimal digit character. -/
def digitVal? (c : Char) : Option Nat :=
  if '0' ≤ c ∧ c ≤ '9' then some (c.toNat - '0'.toNat) else none

/-- Accumulating decimal parse of a digit sequence. -/
def digitsVal? : Nat → List Char → Option Nat
  | acc, [] => some acc
  | acc, c :: cs =>
    match digitVal? c with
    | some d => digitsVal? (10 * acc + d) cs
    | none => none

/-- Model of Python's `int(s)` on the strings this program meets: an optional
leading minus sign followed by a non-empty run of decimal digits.  `none`
models the `ValueError` raised on any other input. -/
def pyInt : List Char → Option Int
  | [] => none
  | '-' :: cs =>
    if cs = [] then none else (digitsVal? 0 cs).map (fun n => -(n : Int))
  | cs => (digitsVal? 0 cs).map (fun n => (n : Int))

/-- The parsed JSON configuration record (`alice_params.json`): optional hex
strings `d` and `z`, and an optional `connections` object modelled as an
association list (so that Python's emptiness-based truthiness test
`if connections:` is expressible: `some []` is a present but empty object). -/
structure Config where
  d : Option (List Char)
  z : Option (List Char)
  connections : Option (List (String × Int))

/-- The externally supplied world `main` runs against. -/
structure Env where
  /-- The parsed parameter file; `none` models `FileNotFoundError`. -/
  config : Option Config
  /-- The address argument, flag `-a` (`none` when not given). -/
  address : Option (List Char)
  /-- The KEM library's `KeyGen`: seeds `d`, `z` to `(ek, dk)`. -/
  keygen : List Byte → List Byte → List Byte × List Byte
  /-- Whether the outbound connect raises `ConnectionRefusedError`. -/
  connectRefused : Bool
  /-- The bytes the peer will send on the accepted inbound connection
  before closing. -/
  stream : List Byte
  /-- How many bytes each successive blocking `recv` yields (clamped to at
  least 1 while data remains, and to the requested amount). -/
  sched : List Nat
  /-- The KEM library's `Decaps`: `(dk, ct)` to the shared secret. -/
  decaps : List Byte → List Byte → List Byte

/-- Observable events of a run, in order of occurrence. -/
inductive Event where
  /-- Call `alice_mlkem.KeyGen(d, z)` was made. -/
  | keyGen : Event
  /-- An outbound connection to `host:port` was attempted and `payload`
  was the value handed to `sendall`. -/
  | connectSend (host : List Char) (port : Int) (payload : List Byte) : Event
  /-- A listening socket was bound on `port` and `accept` was called. -/
  | bindListen (port : Int) : Event
  /-- Call `alice_mlkem.Decaps(dk, ct)` was made. -/
  | decapsCall (dk ct : List Byte) : Event
deriving DecidableEq

/-- The distinguishing reasons logged on the clean error paths. -/
inductive ErrKind where
  | configNotFound
  | missingSeed
  | noPeerAddress
  | sendFailed
  | missingListenConfig
  | invalidPort
deriving DecidableEq

/-- Python exceptions the program can die of without handling them. -/
inductive PyExn where
  | valueError
  | indexError
deriving DecidableEq

/-- How the process ends: a clean `return code` from `main` (with the error
kind logged just before, if any), or an unhandled exception (which also makes
the interpreter exit non-zero, but without the program's own log line). -/
inductive Outcome where
  | exit (code : Nat) (err : Option ErrKind)
  | unhandled (e : PyExn)
deriving DecidableEq

/-- The constant `CIPHER_TEXT_SIZE_IN_BYTES` from `wait_for_bob_response`. -/
def CIPHER_TEXT_SIZE_IN_BYTES : Nat := 768

/-- The accumulation loop of `wait_for_bob_response`:
`while len(ct) < expected: data = recv(expected - len(ct)); if not data:
break; ct += data`.  `need` is `expected - len(ct)`; each `recv` yields
`min need (max 1 s)` bytes of the remaining stream, where `s` is drawn from
the schedule (a blocking `recv` returns at least one byte unless the peer
has closed, in which case `take` of the empty stream yields `[]` and the
loop breaks).  The loop terminates because every iteration either breaks or
consumes at least one byte, so `fuel = need` bounds the iteration count;
the fuel is for structural recursion only and is never exhausted. -/
def recvGo : Nat → Nat → List Byte → List Nat → List Byte
  | 0, _, _, _ => []
  | fuel + 1, need, stream, sched =>
    if need = 0 then []
    else
      let chunk := min need (max 1 (sched.headD need))
      let data := stream.take chunk
      if data = [] then []
      else data ++ recvGo fuel (need - data.length) (stream.drop data.length) (sched.drop 1)

/-- Function `wait_for_bob_response(port)`: bind on `port`, accept one connection,
accumulate up to `CIPHER_TEXT_SIZE_IN_BYTES` bytes.  The socket plumbing is
handled in `main`'s trace; this function is the data part, parameterised by
the peer's stream and the recv schedule. -/
def wait_for_bob_response (stream : List Byte) (sched : List Nat) : List Byte :=
  recvGo CIPHER_TEXT_SIZE_IN_BYTES CIPHER_TEXT_SIZE_IN_BYTES stream sched

/-- Function `send_ek_to_bob`: attempts the connect and `sendall`; catches
`ConnectionRefusedError` and returns `False`, otherwise returns `True`. -/
def send_ek_to_bob (connectionRefused : Bool) : Bool :=
  !connectionRefused

/-- The `main()` function of `alice.py`, step for step:
load config (FileNotFoundError handled), check `d`/`z` presence,
`bytearray.fromhex` both (ValueError unhandled), `KeyGen`, check the address
argument, split it on `:` (IndexError unhandled) and parse the port
(ValueError unhandled), `send_ek_to_bob`, then look for the `connections`
section (Python truthiness: absent or empty both fail), default the port to
0, reject ports below 1024, and only then bind, receive and `Decaps`. -/
def alice_main (env : Env) : Outcome × List Event :=
  match env.config with
  | none => (.exit 1 (some .configNotFound), [])
  | some params =>
    match params.d, params.z with
    | none, _ => (.exit 1 (some .missingSeed), [])
    | some _, none => (.exit 1 (some .missingSeed), [])
    | some dHex, some zHex =>
      match hexDecode dHex, hexDecode zHex with
      | none, _ => (.unhandled .valueError, [])
      | some _, none => (.unhandled .valueError, [])
      | some dBytes, some zBytes =>
        let kp := env.keygen dBytes zBytes
        match env.address with
        | none => (.exit 1 (some .noPeerAddress), [.keyGen])
        | some addrFull =>
          match splitOnChar ':' addrFull with
          | host :: portChars :: _ =>
            match pyInt portChars with
            | none => (.unhandled .valueError, [.keyGen])
            | some bobPort =>
              if send_ek_to_bob env.connectRefused then
                match params.connections with
                | none =>
                  (.exit 1 (some .missingListenConfig),
                   [.keyGen, .connectSend host bobPort kp.1])
                | some conns =>
                  if conns = [] then
                    (.exit 1 (some .missingListenConfig),
                     [.keyGen, .connectSend host bobPort kp.1])
                  else
                    let listenPort := (List.lookup "port" conns).getD 0
                    if listenPort < 1024 then
                      (.exit 1 (some .invalidPort),
                       [.keyGen, .connectSend host bobPort kp.1])
                    else
                      let ct := wait_for_bob_response env.stream env.sched
                      (.exit 0 none,
                       [.keyGen, .connectSend host bobPort kp.1,
                        .bindListen listenPort, .decapsCall kp.2 ct])
              else
                (.exit 1 (some .sendFailed),
                 [.keyGen, .connectSend host bobPort kp.1])
          | _ => (.unhandled .indexError, [.keyGen])

/-- The seeds as decoded by the loading phase, when that phase succeeds. -/
def seedsOf (env : Env) : Option (List Byte × List Byte) :=
  match env.config with
  | none => none
  | some params =>
    match params.d, params.z with
    | some dHex, some zHex =>
      match hexDecode dHex, hexDecode zHex with
      | some dBytes, some zBytes => some (dBytes, zBytes)
      | _, _ => none
    | _, _ => none

/-- The encapsulation key a run would generate, when loading succeeds. -/
def ekOf (env : Env) : Option (List Byte) :=
  (seedsOf env).map (fun s => (env.keygen s.1 s.2).1)

/-- The decapsulation key a run would generate, when loading succeeds. -/
def dkOf (env : Env) : Option (List Byte) :=
  (seedsOf env).map (fun s => (env.keygen s.1 s.2).2)

/-- Whether an event is an outbound connect/send attempt. -/
def Event.isConnect : Event → Bool
  | .connectSend _ _ _ => true
  | _ => false

/-- Whether an event is a bind/listen/accept. -/
def Event.isBind : Event → Bool
  | .bindListen _ => true
  | _ => false

/-! ## Properties of the receive loop -/

theorem take_chunk_append {α : Type} (l : List α) (chunk need : Nat) (h : chunk ≤ need) :
    l.take chunk ++ (l.drop (l.take chunk).length).take (need - (l.take chunk).length)
      = l.take need := by
  rcases Nat.le_total chunk l.length with hc | hc
  · have hlen : (l.take chunk).length = chunk := by
      simp [List.length_take, Nat.min_eq_left hc]
    rw [hlen]
    have : need = chunk + (need - chunk) := by omega
    rw [this, List.take_add, Nat.add_sub_cancel_left]
  · have hall : l.take chunk = l := List.take_of_length_le hc
    rw [hall, List.drop_length]
    simp [List.take_of_length_le (le_trans hc h)]

theorem recvGo_eq_take (fuel : Nat) :
    ∀ (need : Nat) (stream : List Byte) (sched : List Nat), need ≤ fuel →
      recvGo fuel need stream sched = stream.take need := by
  induction fuel with
  | zero =>
    intro need stream sched h
    have : need = 0 := Nat.le_zero.mp h
    subst this
    simp [recvGo]
  | succ fuel ih =>
    intro need stream sched h
    rw [recvGo]
    by_cases h0 : need = 0
    · subst h0; simp
    · simp only [if_neg h0]
      cases stream with
      | nil => simp
      | cons a as =>
        have hch1 : 1  ≤ min need (max 1 (List.headD sched need)) := by
          have : 1 ≤ need := Nat.one_le_iff_ne_zero.mpr h0
          exact le_min this (le_max_left _ _)
        have hdata : (a :: as).take (min need (max 1 (List.headD sched need))) ≠ [] := by
          cases hmin : min need (max 1 (List.headD sched need)) with
          | zero => omega
          | succ k => simp [List.take]
        simp only [if_neg hdata]
        rw [ih]
        · exact take_chunk_append (a :: as) _ need (min_le_left _ _)
        · have hlen : 1 ≤ ((a :: as).take (min need (max 1 (List.headD sched need)))).length := by
            exact List.length_pos.mpr hdata
          omega

theorem wait_for_bob_response_eq_take (stream : List Byte) (sched : List Nat) :
    wait_for_bob_response stream sched = stream.take CIPHER_TEXT_SIZE_IN_BYTES :=
  recvGo_eq_take _ _ _ _ le_rfl

/-- C2: if the peer sends `n < 768` bytes and then closes, `wait_for_bob_response`
returns exactly those `n` accumulated bytes (it neither raises nor loops: it is
a total function whose value is the whole short stream). -/
theorem c2_short_stream_returned_whole (stream : List Byte) (sched : List Nat)
    (h : stream.length < 768) :
    wait_for_bob_response stream sched = stream := by
  rw [wait_for_bob_response_eq_take]
  exact List.take_of_length_le (by simpa [CIPHER_TEXT_SIZE_IN_BYTES] using Nat.le_of_lt h)

theorem c2_witness :
    ([1, 2, 3, 4, 5] : List Byte).length < 768 ∧
      wait_for_bob_response [1, 2, 3, 4, 5] [] = [1, 2, 3, 4, 5] :=
  ⟨by decide, c2_short_stream_returned_whole [1, 2, 3, 4, 5] [] (by decide)⟩

/-- C3: a stream supplying at least 768 bytes yields exactly its first 768
bytes, and in every execution the returned buffer never exceeds 768 bytes. -/
theorem c3_full_stream_first_768 (stream : List Byte) (sched : List Nat) :
    (768 ≤ stream.length → wait_for_bob_response stream sched = stream.take 768) ∧
      (wait_for_bob_response stream sched).length ≤ 768 := by
  constructor
  · intro _
    exact wait_for_bob_response_eq_take stream sched
  · rw [wait_for_bob_response_eq_take]
    simp [CIPHER_TEXT_SIZE_IN_BYTES, List.length_take]

theorem c3_witness :
    768 ≤ (List.replicate 800 (7 : Byte)).length ∧
      wait_for_bob_response (List.replicate 800 (7 : Byte)) [] =
        (List.replicate 800 (7 : Byte)).take 768 :=
  ⟨by rw [List.length_replicate]; omega,
   (c3_full_stream_first_768 (List.replicate 800 (7 : Byte)) []).1
     (by rw [List.length_replicate]; omega)⟩

/-! ## Branch lemmas for `alice_main` -/

theorem alice_main_noconfig (env : Env) (h : env.config = none) :
    alice_main env = (.exit 1 (some .configNotFound), []) := by
  simp [alice_main, h]

theorem alice_main_missing_seed (env : Env) (p : Config) (hc : env.config = some p)
    (h : p.d = none ∨ p.z = none) :
    alice_main env = (.exit 1 (some .missingSeed), []) := by
  rcases h with h | h
  · simp [alice_main, hc, h]
  · cases hd : p.d <;> simp [alice_main, hc, h, hd]

theorem alice_main_bad_hex (env : Env) (p : Config) (dh zh : List Char)
    (hc : env.config = some p) (hd : p.d = some dh) (hz : p.z = some zh)
    (h : hexDecode dh = none ∨ hexDecode zh = none) :
    alice_main env = (.unhandled .valueError, []) := by
  rcases h with h | h
  · simp [alice_main, hc, hd, hz, h]
  · cases hdd : hexDecode dh <;> simp [alice_main, hc, hd, hz, h, hdd]

theorem alice_main_no_peer (env : Env) (p : Config) (dh zh : List Char)
    (db zb : List Byte) (hc : env.config = some p) (hd : p.d = some dh)
    (hz : p.z = some zh) (hdd : hexDecode dh = some db) (hzz : hexDecode zh = some zb)
    (ha : env.address = none) :
    alice_main env = (.exit 1 (some .noPeerAddress), [.keyGen]) := by
  simp [alice_main, hc, hd, hz, hdd, hzz, ha]

theorem alice_main_index_error (env : Env) (p : Config) (dh zh : List Char)
    (db zb : List Byte) (addr piece : List Char) (hc : env.config = some p)
    (hd : p.d = some dh) (hz : p.z = some zh) (hdd : hexDecode dh = some db)
    (hzz : hexDecode zh = some zb) (ha : env.address = some addr)
    (hsplit : splitOnChar ':' addr = [piece]) :
    alice_main env = (.unhandled .indexError, [.keyGen]) := by
  simp [alice_main, hc, hd, hz, hdd, hzz, ha, hsplit]

theorem alice_main_send_failed (env : Env) (p : Config) (dh zh : List Char)
    (db zb : List Byte) (addr host ps : List Char) (rest : List (List Char)) (bp : Int)
    (hc : env.config = some p) (hd : p.d = some dh) (hz : p.z = some zh)
    (hdd : hexDecode dh = some db) (hzz : hexDecode zh = some zb)
    (ha : env.address = some addr) (hsplit : splitOnChar ':' addr = host :: ps :: rest)
    (hint : pyInt ps = some bp) (hr : env.connectRefused = true) :
    alice_main env =
      (.exit 1 (some .sendFailed),
       [.keyGen, .connectSend host bp (env.keygen db zb).1]) := by
  simp [alice_main, hc, hd, hz, hdd, hzz, ha, hsplit, hint, hr, send_ek_to_bob]

theorem alice_main_missing_listen (env : Env) (p : Config) (dh zh : List Char)
    (db zb : List Byte) (addr host ps : List Char) (rest : List (List Char)) (bp : Int)
    (hc : env.config = some p) (hd : p.d = some dh) (hz : p.z = some zh)
    (hdd : hexDecode dh = some db) (hzz : hexDecode zh = some zb)
    (ha : env.address = some addr) (hsplit : splitOnChar ':' addr = host :: ps :: rest)
    (hint : pyInt ps = some bp) (hr : env.connectRefused = false)
    (hconn : p.connections = none ∨ p.connections = some []) :
    alice_main env =
      (.exit 1 (some .missingListenConfig),
       [.keyGen, .connectSend host bp (env.keygen db zb).1]) := by
  rcases hconn with h | h <;>
    simp [alice_main, hc, hd, hz, hdd, hzz, ha, hsplit, hint, hr, h, send_ek_to_bob]

theorem alice_main_invalid_port (env : Env) (p : Config) (dh zh : List Char)
    (db zb : List Byte) (addr host ps : List Char) (rest : List (List Char)) (bp : Int)
    (conns : List (String × Int))
    (hc : env.config = some p) (hd : p.d = some dh) (hz : p.z = some zh)
    (hdd : hexDecode dh = some db) (hzz : hexDecode zh = some zb)
    (ha : env.address = some addr) (hsplit : splitOnChar ':' addr = host :: ps :: rest)
    (hint : pyInt ps = some bp) (hr : env.connectRefused = false)
    (hconn : p.connections = some conns) (hne : conns ≠ [])
    (hport : (List.lookup "port" conns).getD 0 < 1024) :
    alice_main env =
      (.exit 1 (some .invalidPort),
       [.keyGen, .connectSend host bp (env.keygen db zb).1]) := by
  simp [alice_main, hc, hd, hz, hdd, hzz, ha, hsplit, hint, hr, hconn, hne, hport,
    send_ek_to_bob]

theorem alice_main_success (env : Env) (p : Config) (dh zh : List Char)
    (db zb : List Byte) (addr host ps : List Char) (rest : List (List Char)) (bp : Int)
    (conns : List (String × Int))
    (hc : env.config = some p) (hd : p.d = some dh) (hz : p.z = some zh)
    (hdd : hexDecode dh = some db) (hzz : hexDecode zh = some zb)
    (ha : env.address = some addr) (hsplit : splitOnChar ':' addr = host :: ps :: rest)
    (hint : pyInt ps = some bp) (hr : env.connectRefused = false)
    (hconn : p.connections = some conns) (hne : conns ≠ [])
    (hport : ¬ (List.lookup "port" conns).getD 0 < 1024) :
    alice_main env =
      (.exit 0 none,
       [.keyGen, .connectSend host bp (env.keygen db zb).1,
        .bindListen ((List.lookup "port" conns).getD 0),
        .decapsCall (env.keygen db zb).2 (wait_for_bob_response env.stream env.sched)]) := by
  simp [alice_main, hc, hd, hz, hdd, hzz, ha, hsplit, hint, hr, hconn, hne, hport,
    send_ek_to_bob]

/-! ## Concrete test environments (inputs to the program, not part of the model) -/

/-- A concrete stand-in for the KEM library's `KeyGen`, used only as a test
input: the KEM internals are out of scope, any pure function fits the
contract. -/
def kgStub : List Byte → List Byte → List Byte × List Byte :=
  fun d z => (d ++ z, z ++ d)

/-- A concrete stand-in for the KEM library's `Decaps`, used only as a test
input. -/
def dcStub : List Byte → List Byte → List Byte :=
  fun dk ct => dk ++ ct

/-- A run whose config is valid except that the listen port is 80. -/
def envPort80 : Env :=
  { config := some { d := some "00".toList, z := some "11".toList,
                     connections := some [("port", 80)] },
    address := some "localhost:9000".toList,
    keygen := kgStub,
    connectRefused := false,
    stream := [],
    sched := [],
    decaps := dcStub }

/-! ## Splitting lemma -/

theorem splitOnChar_of_not_mem (c : Char) (l : List Char) (h : c ∉ l) :
    splitOnChar c l = [l] := by
  induction l with
  | nil => rfl
  | cons x xs ih =>
    have hx : ¬ x = c := fun he => h (by simp [he])
    have hxs : c ∉ xs := fun hm => h (by simp [hm])
    simp [splitOnChar, ih hxs, hx]

/-- Whitespace-separated hex, accepted by `bytearray.fromhex`, is accepted
by the model as well (so `hexDecode … = none` covers only genuinely
rejected seed strings). -/
theorem hexDecode_skips_whitespace : hexDecode "2Ef0 F1f2".toList = some [46, 240, 241, 242] := by
  decide

/-! ## Claims -/

/-- C10: a peer address string containing no colon makes the program die of
an unhandled index-out-of-range exception while splitting the address (the
outcome is `unhandled indexError`, not a clean logged `exit 1`); no
validation of the address shape happens first. -/
theorem c10_no_colon_index_error (env : Env) (p : Config) (dh zh : List Char)
    (db zb : List Byte) (addr : List Char) (hc : env.config = some p)
    (hd : p.d = some dh) (hz : p.z = some zh) (hdd : hexDecode dh = some db)
    (hzz : hexDecode zh = some zb) (ha : env.address = some addr)
    (hcolon : ':' ∉ addr) :
    alice_main env = (.unhandled .indexError, [.keyGen]) ∧
      ∀ k, (alice_main env).1 ≠ .exit 1 k := by
  have he := alice_main_index_error env p dh zh db zb addr addr hc hd hz hdd hzz ha
    (splitOnChar_of_not_mem ':' addr hcolon)
  exact ⟨he, fun k => by rw [he]; simp⟩

/-- A run whose address argument contains no colon. -/
def envNoColon : Env :=
  { config := some { d := some "00".toList, z := some "11".toList,
                     connections := some [("port", 5000)] },
    address := some "localhost6000".toList,
    keygen := kgStub,
    connectRefused := false,
    stream := [],
    sched := [],
    decaps := dcStub }

theorem c10_witness :
    ':' ∉ "localhost6000".toList ∧
      alice_main envNoColon = (.unhandled .indexError, [.keyGen]) :=
  ⟨by decide,
   (c10_no_colon_index_error envNoColon
      { d := some "00".toList, z := some "11".toList,
        connections := some [("port", 5000)] }
      "00".toList "11".toList [0] [17] "localhost6000".toList
      rfl rfl rfl (by decide) (by decide) rfl (by decide)).1⟩

/-- C8: when no peer address is supplied, the run aborts with
`NoPeerAddress` and exit status 1, after key generation (the trace is
exactly `[keyGen]`) and without attempting any outbound connection. -/
theorem c8_no_peer_address (env : Env) (p : Config) (dh zh : List Char)
    (db zb : List Byte) (hc : env.config = some p) (hd : p.d = some dh)
    (hz : p.z = some zh) (hdd : hexDecode dh = some db)
    (hzz : hexDecode zh = some zb) (ha : env.address = none) :
    alice_main env = (.exit 1 (some .noPeerAddress), [.keyGen]) ∧
      Event.keyGen ∈ (alice_main env).2 ∧
      (alice_main env).2.any Event.isConnect = false := by
  have he := alice_main_no_peer env p dh zh db zb hc hd hz hdd hzz ha
  refine ⟨he, ?_, ?_⟩ <;> rw [he] <;> simp [Event.isConnect]

/-- A run given a valid config but no address argument. -/
def envNoAddr : Env :=
  { config := some { d := some "00".toList, z := some "11".toList,
                     connections := some [("port", 5000)] },
    address := none,
    keygen := kgStub,
    connectRefused := false,
    stream := [],
    sched := [],
    decaps := dcStub }

theorem c8_witness :
    alice_main envNoAddr = (.exit 1 (some .noPeerAddress), [.keyGen]) :=
  (c8_no_peer_address envNoAddr
      { d := some "00".toList, z := some "11".toList,
        connections := some [("port", 5000)] }
      "00".toList "11".toList [0] [17]
      rfl rfl rfl (by decide) (by decide) rfl).1

/-- C5: when the outbound connection is refused, `send_ek_to_bob` returns
`false` rather than crashing, and the run exits with status 1 and the
`SendFailed` reason without ever binding a listening socket or accepting. -/
theorem c5_refused_send_aborts (env : Env) (p : Config) (dh zh : List Char)
    (db zb : List Byte) (addr host ps : List Char) (rest : List (List Char)) (bp : Int)
    (hc : env.config = some p) (hd : p.d = some dh) (hz : p.z = some zh)
    (hdd : hexDecode dh = some db) (hzz : hexDecode zh = some zb)
    (ha : env.address = some addr) (hsplit : splitOnChar ':' addr = host :: ps :: rest)
    (hint : pyInt ps = some bp) (hr : env.connectRefused = true) :
    send_ek_to_bob env.connectRefused = false ∧
      (alice_main env).1 = .exit 1 (some .sendFailed) ∧
      (alice_main env).2.any Event.isBind = false := by
  have he := alice_main_send_failed env p dh zh db zb addr host ps rest bp
    hc hd hz hdd hzz ha hsplit hint hr
  refine ⟨by rw [hr]; rfl, ?_, ?_⟩ <;> simp [he, Event.isBind]

/-- A run whose outbound connection to the peer is refused. -/
def envRefused : Env :=
  { config := some { d := some "00".toList, z := some "11".toList,
                     connections := some [("port", 5000)] },
    address := some "localhost:9000".toList,
    keygen := kgStub,
    connectRefused := true,
    stream := [],
    sched := [],
    decaps := dcStub }

theorem c5_witness :
    send_ek_to_bob envRefused.connectRefused = false ∧
      (alice_main envRefused).1 = .exit 1 (some .sendFailed) ∧
      (alice_main envRefused).2.any Event.isBind = false :=
  c5_refused_send_aborts envRefused
    { d := some "00".toList, z := some "11".toList,
      connections := some [("port", 5000)] }
    "00".toList "11".toList [0] [17]
    "localhost:9000".toList "localhost".toList "9000".toList [] 9000
    rfl rfl rfl (by decide) (by decide) rfl (by decide) (by decide) rfl

/-- A run whose config has an invalid (non-hexadecimal) `d` value. -/
def envBadHex : Env :=
  { config := some { d := some "zz".toList, z := some "11".toList,
                     connections := some [("port", 5000)] },
    address := some "localhost:9000".toList,
    keygen := kgStub,
    connectRefused := false,
    stream := [],
    sched := [],
    decaps := dcStub }

/-- C6 (counterexample): with `d = "zz"` (present but not valid hex) the
program dies of an unhandled `ValueError` from `bytearray.fromhex`, not of
the logged `MissingSeed` error path the claim describes. -/
theorem c6_counterexample :
    alice_main envBadHex = (.unhandled .valueError, []) ∧
      (alice_main envBadHex).1 ≠ .exit 1 (some .missingSeed) := by
  decide

/-- C6 (amended): a config with `d` or `z` absent fails with the logged
`MissingSeed` error and exit status 1, without invoking KeyGen (empty
trace); a config whose `d` or `z` is present but rejected by
`bytearray.fromhex` (not pairs of hex digits with optional ASCII whitespace
between pairs) instead dies of an unhandled `ValueError`, also without
invoking KeyGen. -/
theorem c6_missing_or_invalid_seed (env : Env) (p : Config)
    (hc : env.config = some p) :
    ((p.d = none ∨ p.z = none) →
        alice_main env = (.exit 1 (some .missingSeed), [])) ∧
      (∀ dh zh, p.d = some dh → p.z = some zh →
        (hexDecode dh = none ∨ hexDecode zh = none) →
        alice_main env = (.unhandled .valueError, [])) := by
  exact ⟨fun h => alice_main_missing_seed env p hc h,
    fun dh zh hd hz h => alice_main_bad_hex env p dh zh hc hd hz h⟩

theorem c6_witness :
    hexDecode "zz".toList = none ∧
      alice_main envBadHex = (.unhandled .valueError, []) :=
  ⟨by decide,
   (c6_missing_or_invalid_seed envBadHex
      { d := some "zz".toList, z := some "11".toList,
        connections := some [("port", 5000)] } rfl).2
     "zz".toList "11".toList rfl rfl (Or.inl (by decide))⟩

/-- C1 (counterexample): with a listen port of 80 (< 1024) and everything
else valid, the run does fail with `InvalidPort` and exit status 1, but only
after KeyGen has been invoked and after the outbound connection has been
opened and the encapsulation key sent — not during parameter loading before
them, as the claim states. -/
theorem c1_counterexample :
    (alice_main envPort80).1 = .exit 1 (some .invalidPort) ∧
      Event.keyGen ∈ (alice_main envPort80).2 ∧
      (alice_main envPort80).2.any Event.isConnect = true := by
  decide

/-- C1 (amended): in a run whose loading, KeyGen, address parsing and
outbound send all succeed, a listen port below 1024 makes the program exit
with status 1 and the `InvalidPort` reason; the check fires after KeyGen and
after the outbound send (both are in the trace) but before the listening
socket is bound and before Decaps (the trace ends at the send). -/
theorem c1_invalid_port_after_keygen_and_send (env : Env) (p : Config)
    (dh zh : List Char) (db zb : List Byte) (addr host ps : List Char)
    (rest : List (List Char)) (bp : Int) (conns : List (String × Int))
    (hc : env.config = some p) (hd : p.d = some dh) (hz : p.z = some zh)
    (hdd : hexDecode dh = some db) (hzz : hexDecode zh = some zb)
    (ha : env.address = some addr) (hsplit : splitOnChar ':' addr = host :: ps :: rest)
    (hint : pyInt ps = some bp) (hr : env.connectRefused = false)
    (hconn : p.connections = some conns) (hne : conns ≠ [])
    (hport : (List.lookup "port" conns).getD 0 < 1024) :
    (alice_main env).1 = .exit 1 (some .invalidPort) ∧
      (alice_main env).2 = [.keyGen, .connectSend host bp (env.keygen db zb).1] := by
  have he := alice_main_invalid_port env p dh zh db zb addr host ps rest bp conns
    hc hd hz hdd hzz ha hsplit hint hr hconn hne hport
  exact ⟨by rw [he], by rw [he]⟩

theorem c1_witness :
    (List.lookup "port" [("port", (80 : Int))]).getD 0 < 1024 ∧
      (alice_main envPort80).1 = .exit 1 (some .invalidPort) ∧
      (alice_main envPort80).2 =
        [.keyGen, .connectSend "localhost".toList 9000 (envPort80.keygen [0] [17]).1] :=
  ⟨by decide,
   c1_invalid_port_after_keygen_and_send envPort80
     { d := some "00".toList, z := some "11".toList,
       connections := some [("port", 80)] }
     "00".toList "11".toList [0] [17]
     "localhost:9000".toList "localhost".toList "9000".toList [] 9000
     [("port", 80)]
     rfl rfl rfl (by decide) (by decide) rfl (by decide) (by decide) rfl rfl
     (by decide) (by decide)⟩

/-- A run whose config has a present but empty `connections` section. -/
def envEmptyConn : Env :=
  { config := some { d := some "00".toList, z := some "11".toList,
                     connections := some [] },
    address := some "localhost:9000".toList,
    keygen := kgStub,
    connectRefused := false,
    stream := [],
    sched := [],
    decaps := dcStub }

/-- C9 (counterexample): a config whose `connections` section is present but
empty takes the missing-listen-configuration branch (Python's `if
connections:` is false on an empty dict), not the port-below-1024 branch the
claim predicts for every section lacking a `port` field. -/
theorem c9_counterexample :
    (alice_main envEmptyConn).1 = .exit 1 (some .missingListenConfig) ∧
      (alice_main envEmptyConn).1 ≠ .exit 1 (some .invalidPort) := by
  decide

/-- C9 (amended): in a run that reaches the listen-port check, a `connections`
section that is non-empty but has no `port` field defaults the listen port
to 0 and exits with status 1 through the port-below-1024 branch; an empty
`connections` section instead exits through the missing-listen-configuration
branch. -/
theorem c9_port_defaults_to_zero (env : Env) (p : Config) (dh zh : List Char)
    (db zb : List Byte) (addr host ps : List Char) (rest : List (List Char)) (bp : Int)
    (conns : List (String × Int))
    (hc : env.config = some p) (hd : p.d = some dh) (hz : p.z = some zh)
    (hdd : hexDecode dh = some db) (hzz : hexDecode zh = some zb)
    (ha : env.address = some addr) (hsplit : splitOnChar ':' addr = host :: ps :: rest)
    (hint : pyInt ps = some bp) (hr : env.connectRefused = false)
    (hconn : p.connections = some conns) :
    (conns ≠ [] → List.lookup "port" conns = none →
        (alice_main env).1 = .exit 1 (some .invalidPort)) ∧
      (conns = [] →
        (alice_main env).1 = .exit 1 (some .missingListenConfig)) := by
  constructor
  · intro hne hlk
    have he := alice_main_invalid_port env p dh zh db zb addr host ps rest bp conns
      hc hd hz hdd hzz ha hsplit hint hr hconn hne (by rw [hlk]; simp)
    rw [he]
  · intro h0
    subst h0
    have he := alice_main_missing_listen env p dh zh db zb addr host ps rest bp
      hc hd hz hdd hzz ha hsplit hint hr (Or.inr hconn)
    rw [he]

/-- A run whose config has a non-empty `connections` section lacking `port`. -/
def envConnNoPort : Env :=
  { config := some { d := some "00".toList, z := some "11".toList,
                     connections := some [("host", 1)] },
    address := some "localhost:9000".toList,
    keygen := kgStub,
    connectRefused := false,
    stream := [],
    sched := [],
    decaps := dcStub }

theorem c9_witness :
    List.lookup "port" [("host", (1 : Int))] = none ∧
      (alice_main envConnNoPort).1 = .exit 1 (some .invalidPort) :=
  ⟨by decide,
   (c9_port_defaults_to_zero envConnNoPort
      { d := some "00".toList, z := some "11".toList,
        connections := some [("host", 1)] }
      "00".toList "11".toList [0] [17]
      "localhost:9000".toList "localhost".toList "9000".toList [] 9000
      [("host", 1)]
      rfl rfl rfl (by decide) (by decide) rfl (by decide) (by decide) rfl rfl).1
     (by decide) (by decide)⟩

/-- C7: in every execution, every payload handed to an outbound socket write
is exactly the encapsulation key `ek` produced by KeyGen from the decoded
seeds, and the decapsulation key `dk` appears only as the key argument of
Decaps — it is never transmitted. -/
theorem c7_only_ek_sent_dk_only_decaps (env : Env) :
    (∀ host bp pl, Event.connectSend host bp pl ∈ (alice_main env).2 →
        ekOf env = some pl) ∧
      (∀ dk ct, Event.decapsCall dk ct ∈ (alice_main env).2 →
        dkOf env = some dk) := by
  constructor
  · intro host bp pl hm
    unfold alice_main at hm
    repeat' split at hm
    all_goals try rw [apply_ite Prod.snd] at hm
    all_goals repeat' split at hm
    all_goals simp_all [ekOf, seedsOf]
  · intro dk ct hm
    unfold alice_main at hm
    repeat' split at hm
    all_goals try rw [apply_ite Prod.snd] at hm
    all_goals repeat' split at hm
    all_goals simp_all [dkOf, seedsOf]

/-- A fully successful run: valid config, reachable peer, 3-byte response. -/
def envGood : Env :=
  { config := some { d := some "00".toList, z := some "11".toList,
                     connections := some [("port", 5000)] },
    address := some "localhost:9000".toList,
    keygen := kgStub,
    connectRefused := false,
    stream := [1, 2, 3],
    sched := [],
    decaps := dcStub }

theorem c7_witness :
    Event.connectSend "localhost".toList 9000 [0, 17] ∈ (alice_main envGood).2 ∧
      ekOf envGood = some [0, 17] :=
  ⟨by decide,
   (c7_only_ek_sent_dk_only_decaps envGood).1 "localhost".toList 9000 [0, 17]
     (by decide)⟩

/-- C4: exit status 0 exactly on full success and 1 on each enumerated
failure, each with its own distinguishing logged reason
(`ConfigNotFound`, `MissingSeed`, `NoPeerAddress`, `SendFailed`,
`MissingListenConfig` and `InvalidPort` are pairwise distinct constructors);
every clean exit is 0-with-no-reason or 1-with-a-reason; and there is no
retry: no trace ever holds more than one connect attempt or more than one
listen. -/
theorem c4_exit_codes (env : Env) :
    (env.config = none → (alice_main env).1 = .exit 1 (some .configNotFound)) ∧
      (∀ p, env.config = some p → (p.d = none ∨ p.z = none) →
        (alice_main env).1 = .exit 1 (some .missingSeed)) ∧
      (∀ p dh zh db zb, env.config = some p → p.d = some dh → p.z = some zh →
        hexDecode dh = some db → hexDecode zh = some zb → env.address = none →
        (alice_main env).1 = .exit 1 (some .noPeerAddress)) ∧
      (∀ p dh zh db zb addr host ps rest bp, env.config = some p → p.d = some dh →
        p.z = some zh → hexDecode dh = some db → hexDecode zh = some zb →
        env.address = some addr → splitOnChar ':' addr = host :: ps :: rest →
        pyInt ps = some bp → env.connectRefused = true →
        (alice_main env).1 = .exit 1 (some .sendFailed)) ∧
      (∀ p dh zh db zb addr host ps rest bp, env.config = some p → p.d = some dh →
        p.z = some zh → hexDecode dh = some db → hexDecode zh = some zb →
        env.address = some addr → splitOnChar ':' addr = host :: ps :: rest →
        pyInt ps = some bp → env.connectRefused = false →
        (p.connections = none ∨ p.connections = some []) →
        (alice_main env).1 = .exit 1 (some .missingListenConfig)) ∧
      (∀ p dh zh db zb addr host ps rest bp conns, env.config = some p → p.d = some dh →
        p.z = some zh → hexDecode dh = some db → hexDecode zh = some zb →
        env.address = some addr → splitOnChar ':' addr = host :: ps :: rest →
        pyInt ps = some bp → env.connectRefused = false →
        p.connections = some conns → conns ≠ [] →
        (List.lookup "port" conns).getD 0 < 1024 →
        (alice_main env).1 = .exit 1 (some .invalidPort)) ∧
      (∀ p dh zh db zb addr host ps rest bp conns, env.config = some p → p.d = some dh →
        p.z = some zh → hexDecode dh = some db → hexDecode zh = some zb →
        env.address = some addr → splitOnChar ':' addr = host :: ps :: rest →
        pyInt ps = some bp → env.connectRefused = false →
        p.connections = some conns → conns ≠ [] →
        ¬ (List.lookup "port" conns).getD 0 < 1024 →
        (alice_main env).1 = .exit 0 none) ∧
      (∀ c e, (alice_main env).1 = .exit c e → (c = 0 ∧ e = none) ∨ (c = 1 ∧ e ≠ none)) ∧
      ((alice_main env).2.countP (fun ev => ev.isConnect)) ≤ 1 ∧
      ((alice_main env).2.countP (fun ev => ev.isBind)) ≤ 1 := by
  refine ⟨?_, ?_, ?_, ?_, ?_, ?_, ?_, ?_, ?_, ?_⟩
  · intro h; rw [alice_main_noconfig env h]
  · intro p hc h; rw [alice_main_missing_seed env p hc h]
  · intro p dh zh db zb hc hd hz hdd hzz ha
    rw [alice_main_no_peer env p dh zh db zb hc hd hz hdd hzz ha]
  · intro p dh zh db zb addr host ps rest bp hc hd hz hdd hzz ha hsplit hint hr
    rw [alice_main_send_failed env p dh zh db zb addr host ps rest bp
      hc hd hz hdd hzz ha hsplit hint hr]
  · intro p dh zh db zb addr host ps rest bp hc hd hz hdd hzz ha hsplit hint hr hconn
    rw [alice_main_missing_listen env p dh zh db zb addr host ps rest bp
      hc hd hz hdd hzz ha hsplit hint hr hconn]
  · intro p dh zh db zb addr host ps rest bp conns hc hd hz hdd hzz ha hsplit hint hr
      hconn hne hport
    rw [alice_main_invalid_port env p dh zh db zb addr host ps rest bp conns
      hc hd hz hdd hzz ha hsplit hint hr hconn hne hport]
  · intro p dh zh db zb addr host ps rest bp conns hc hd hz hdd hzz ha hsplit hint hr
      hconn hne hport
    rw [alice_main_success env p dh zh db zb addr host ps rest bp conns
      hc hd hz hdd hzz ha hsplit hint hr hconn hne hport]
  · intro c e h
    unfold alice_main at h
    repeat' split at h
    all_goals try rw [apply_ite Prod.fst] at h
    all_goals repeat' split at h
    all_goals simp_all
    all_goals obtain ⟨rfl, rfl⟩ := h
    all_goals simp
  · unfold alice_main
    repeat' split
    all_goals try rw [apply_ite Prod.snd]
    all_goals repeat' split
    all_goals simp [Event.isConnect, List.countP_cons, List.countP_nil]
  · unfold alice_main
    repeat' split
    all_goals try rw [apply_ite Prod.snd]
    all_goals repeat' split
    all_goals simp [Event.isBind, List.countP_cons, List.countP_nil]

/-- A run with no parameter file present. -/
def envNoConfig : Env :=
  { config := none,
    address := none,
    keygen := kgStub,
    connectRefused := false,
    stream := [],
    sched := [],
    decaps := dcStub }

theorem c4_witness :
    envNoConfig.config = none ∧
      (alice_main envNoConfig).1 = .exit 1 (some .configNotFound) :=
  ⟨rfl, (c4_exit_codes envNoConfig).1 rfl⟩
